import Mathlib

/-!
Shallow embedding of the conversation store (`src/core/memory.py`,
`ConversationManager`) and the LLM provider factory (`src/core/llm.py`).

The SQLite `conversations` table is modelled as a list of rows; row order in
the list is irrelevant to the queries we model, because point lookups go
through the primary key `id` and list queries sort by `created_at` first.
`TEXT` columns are `String`, the nullable `title` column is `Option String`.
JSON round-tripping of arbitrary Python strings is the identity, so the
`messages` column (a JSON array of `{type, content}` objects) is modelled
structurally as a list of `(type, content)` pairs.  Timestamps are the ISO
strings produced by `datetime.utcnow().isoformat()`, compared as strings —
exactly what the SQL `ORDER BY created_at DESC` does.
-/

namespace MyAgent

/-- Message role: `HumanMessage` ↔ human, `AIMessage` ↔ assistant
(the two LangChain classes used in `memory.py`). -/
inductive Role where
  | human
  | assistant
deriving DecidableEq, Repr

/-- A LangChain chat message as used by the store: a role and text content. -/
structure Message where
  role : Role
  content : String
deriving DecidableEq, Repr

/-- The Python class name `message.__class__.__name__` serialized by
`_message_to_dict`. -/
def typeTag : Role → String
  | .human => "HumanMessage"
  | .assistant => "AIMessage"

/-- `ConversationManager._message_to_dict`: encodes a message as the dict
`{type: <class name>, content: <text>}`, modelled as a pair. -/
def message_to_dict (m : Message) : String × String :=
  (typeTag m.role, m.content)

/-- `ConversationManager._deserialize_messages`: walks the decoded JSON list,
rebuilding `HumanMessage`/`AIMessage` entries and skipping every other tag. -/
def deserialize_messages : List (String × String) → List Message
  | [] => []
  | (t, c) :: rest =>
    if t = "HumanMessage" then ⟨Role.human, c⟩ :: deserialize_messages rest
    else if t = "AIMessage" then ⟨Role.assistant, c⟩ :: deserialize_messages rest
    else deserialize_messages rest

/-- One row of the `conversations` table (schema in `_init_db`). -/
structure ConvRecord where
  id : String
  type : String
  title : Option String
  created_at : String
  updated_at : String
  messages : List (String × String)
  metadata : String
deriving DecidableEq, Repr

/-- The `conversations` table. -/
abbrev Store := List ConvRecord

/-- `SELECT ... FROM conversations WHERE id = ?` (primary-key lookup). -/
def findConv (s : Store) (conv_id : String) : Option ConvRecord :=
  s.find? (fun r => r.id == conv_id)

/-- Python truthiness of an optional string argument (`if title:` is false
for both `None` and `""`). -/
def pyTruthy : Option String → Bool
  | none => false
  | some t => t != ""

/-- Code-point-wise lexicographic comparison of character lists: the order
SQLite applies to `TEXT` columns (`ORDER BY created_at DESC`) and Python to
`str`.  On the ISO-8601 UTC timestamps stored by the manager it coincides
with chronological order. -/
def charListLe : List Char → List Char → Bool
  | [], _ => true
  | _ :: _, [] => false
  | c :: cs, d :: ds =>
    if c.toNat < d.toNat then true
    else if d.toNat < c.toNat then false
    else charListLe cs ds

/-- The `TEXT` column order on strings. -/
def strLe (a b : String) : Prop :=
  charListLe a.data b.data = true

instance : DecidableRel strLe :=
  fun a b => inferInstanceAs (Decidable (charListLe a.data b.data = true))

/-- A Python runtime error surfaced by the embedded code. -/
inductive PyError where
  | nameError (missing : String)
deriving DecidableEq, Repr

/-- `ConversationManager.create_conversation`: inserts a fresh row with both
timestamps set to `now` and metadata `"{}"`.  The generated UUID and the
clock reading are inputs of the model. -/
def create_conversation (s : Store) (conv_id : String) (conv_type : String)
    (title : Option String) (messages : List Message) (now : String) : Store :=
  { id := conv_id, type := conv_type, title := title, created_at := now,
    updated_at := now, messages := messages.map message_to_dict,
    metadata := "{}" } :: s

/-- The row assignment performed by the two `UPDATE` statements of
`save_conversation`: always `messages` and `updated_at`, plus `title`
exactly when the `title` argument is truthy. -/
def applySave (messages : List Message) (title : Option String) (now : String)
    (r : ConvRecord) : ConvRecord :=
  if pyTruthy title then
    { r with messages := messages.map message_to_dict, updated_at := now,
             title := title }
  else
    { r with messages := messages.map message_to_dict, updated_at := now }

/-- `ConversationManager.save_conversation`.  When a row with `conv_id`
exists, it runs `UPDATE ... SET messages, updated_at[, title]` (the `title`
column is only touched when the argument is truthy).  When no row exists the
insert branch evaluates `conv_type.value if isinstance(conv_type, ...)`, but
`conv_type` is not a name bound anywhere in `save_conversation`, so the call
raises `NameError: name 'conv_type' is not defined` before inserting. -/
def save_conversation (s : Store) (conv_id : String) (messages : List Message)
    (title : Option String) (now : String) : Except PyError Store :=
  match s.find? (fun r => r.id == conv_id) with
  | some _ =>
    .ok (s.map (fun r =>
      if r.id == conv_id then applySave messages title now r else r))
  | none => .error (.nameError "conv_type")

/-- The dict returned by `load_conversation`, with `messages` deserialized. -/
structure LoadedConversation where
  id : String
  type : String
  title : Option String
  created_at : String
  updated_at : String
  messages : List Message
  metadata : String
deriving DecidableEq, Repr

/-- `ConversationManager.load_conversation`: primary-key lookup, `None` when
no row matches, otherwise the full record with deserialized messages. -/
def load_conversation (s : Store) (conv_id : String) : Option LoadedConversation :=
  (s.find? (fun r => r.id == conv_id)).map (fun r =>
    { id := r.id, type := r.type, title := r.title, created_at := r.created_at,
      updated_at := r.updated_at,
      messages := deserialize_messages r.messages, metadata := r.metadata })

/-- `ConversationManager.delete_conversation`: `DELETE ... WHERE id = ?`,
returning `cursor.rowcount > 0` together with the resulting table. -/
def delete_conversation (s : Store) (conv_id : String) : Bool × Store :=
  let s' := s.filter (fun r => !(r.id == conv_id))
  (decide (s'.length < s.length), s')

/-- Summary row returned by `list_conversations` (no `messages`/`metadata`). -/
structure ConvSummary where
  id : String
  type : String
  title : Option String
  created_at : String
  updated_at : String
deriving DecidableEq, Repr

/-- Projection of a row to its `list_conversations` summary. -/
def toSummary (r : ConvRecord) : ConvSummary :=
  ⟨r.id, r.type, r.title, r.created_at, r.updated_at⟩

/-- The `ORDER BY created_at DESC` comparison on rows. -/
def createdDesc (a b : ConvRecord) : Prop :=
  strLe b.created_at a.created_at

instance : DecidableRel createdDesc :=
  fun a b => inferInstanceAs (Decidable (strLe b.created_at a.created_at))

/-- `ConversationManager.list_conversations`: optional type filter (Python
`if conv_type:` treats `None` and `""` as "no filter"), `ORDER BY created_at
DESC`, then `LIMIT ? OFFSET ?`, projected to summaries. -/
def list_conversations (s : Store) (conv_type : Option String)
    (limit offset : Nat) : List ConvSummary :=
  let rows : Store :=
    match conv_type with
    | some t => if t != "" then s.filter (fun r => r.type == t) else s
    | none => s
  (((rows.insertionSort createdDesc).drop offset).take limit).map toSummary

/-- One row of the `habit_logs` table.  `logged_date` is an abstract day
number: ISO `YYYY-MM-DD` strings compare lexicographically exactly as their
day numbers compare, so the SQL `logged_date >= ?` filter and
`ORDER BY logged_date DESC` are faithfully represented over `Int`. -/
structure HabitLog where
  id : String
  habit_id : String
  logged_date : Int
  completed : Bool
  notes : Option String
  created_at : String
deriving DecidableEq, Repr

/-- The `ORDER BY logged_date DESC` comparison on habit rows. -/
def loggedDesc (a b : HabitLog) : Prop :=
  b.logged_date ≤ a.logged_date

instance : DecidableRel loggedDesc :=
  fun a b => inferInstanceAs (Decidable (b.logged_date ≤ a.logged_date))

instance : IsTotal HabitLog loggedDesc :=
  ⟨fun a b => (le_total b.logged_date a.logged_date).imp id id⟩

instance : IsTrans HabitLog loggedDesc :=
  ⟨fun _ _ _ hab hbc => le_trans hbc hab⟩

/-- The row set scanned by `get_habit_stats`:
`WHERE habit_id = ? AND logged_date >= today - (days - 1)
 ORDER BY logged_date DESC`. -/
def habit_rows (logs : List HabitLog) (habit_id : String) (days : Nat)
    (today : Int) : List HabitLog :=
  let start : Int := today - ((days : Int) - 1)
  (logs.filter (fun l =>
    l.habit_id == habit_id && decide (start ≤ l.logged_date))).insertionSort loggedDesc

/-- The stats dict returned by `get_habit_stats`; the `logs` key carries the
`(logged_date, completed)` pairs of the scanned rows. -/
structure HabitStats where
  habit_id : String
  days_tracked : Nat
  completed : Nat
  total : Nat
  completion_rate : ℚ
  current_streak : Nat
  logs : List (Int × Bool)
deriving DecidableEq, Repr

/-- The streak loop of `get_habit_stats`: guarded by
`if rows and rows[0][1]`, then `for row in rows: if row[1]: streak += 1
else: break` — the length of the longest completed prefix. -/
def calcStreak (rows : List HabitLog) : Nat :=
  match rows with
  | [] => 0
  | l :: _ =>
    if l.completed then (rows.takeWhile (fun x => x.completed)).length else 0

/-- `ConversationManager.get_habit_stats`: counts completed rows in the
window, divides by the requested window size `days` (guarding `days = 0`),
and walks the most-recent-first rows for the streak, stopping at the first
incomplete row. -/
def get_habit_stats (logs : List HabitLog) (habit_id : String) (days : Nat)
    (today : Int) : HabitStats :=
  let rows := habit_rows logs habit_id days today
  let completed_count := rows.countP (fun l => l.completed)
  let streak : Nat := calcStreak rows
  { habit_id := habit_id
    days_tracked := days
    completed := completed_count
    total := rows.length
    completion_rate :=
      if 0 < days then (completed_count : ℚ) / (days : ℚ) * 100 else 0
    current_streak := streak
    logs := rows.map (fun l => (l.logged_date, l.completed)) }

/-- An LLM provider instance from `src/core/llm.py`.  Each variant carries
its constructor arguments plus a `client_ready` flag standing for
`self.client` (`None` until `initialize` runs, so `False` at construction). -/
inductive Provider where
  | ollamaP (base_url model : String) (client_ready : Bool)
  | openaiP (api_key model : String) (client_ready : Bool)
  | geminiP (api_key model : String) (client_ready : Bool)
deriving DecidableEq, Repr

/-- `get_model_info` of each provider class: reads only the constructor
fields, never `self.client`. -/
def get_model_info : Provider → List (String × String)
  | .ollamaP base_url model _ =>
    [("provider", "ollama"), ("model", model), ("base_url", base_url),
     ("type", "local")]
  | .openaiP _ model _ =>
    [("provider", "openai"), ("model", model), ("type", "cloud")]
  | .geminiP _ model _ =>
    [("provider", "gemini"), ("model", model), ("type", "cloud")]

/-- Python dict access `info["key"]` on the model-info dict. -/
def infoLookup (info : List (String × String)) (key : String) : Option String :=
  (info.find? (fun e => e.1 == key)).map (fun e => e.2)

/-- Python `str.lower()` as applied to the provider tag (character-wise
lower-casing). -/
def pyLower (s : String) : String :=
  ⟨s.data.map Char.toLower⟩

/-- The `ValueError`s raised by `create_llm_provider`, split by kind. -/
inductive FactoryError where
  | missingParameter (msg : String)
  | unknownProvider (tag : String)
deriving DecidableEq, Repr

/-- `create_llm_provider`: dispatches on `provider_type.lower()`; each branch
checks its two required parameters with Python truthiness (`not x` rejects
both `None` and `""`) and otherwise constructs the provider (whose
`__init__` leaves `self.client = None`); an unrecognized tag raises
`ValueError("Unknown LLM provider: ...")`. -/
def create_llm_provider (provider_type : String)
    (ollama_base_url ollama_model openai_api_key openai_model
     gemini_api_key gemini_model : Option String) :
    Except FactoryError Provider :=
  if pyLower provider_type == "ollama" then
    if !(pyTruthy ollama_base_url) || !(pyTruthy ollama_model) then
      .error (.missingParameter
        "ollama_base_url and ollama_model required for Ollama provider")
    else
      .ok (.ollamaP (ollama_base_url.getD "") (ollama_model.getD "") false)
  else if pyLower provider_type == "openai" then
    if !(pyTruthy openai_api_key) || !(pyTruthy openai_model) then
      .error (.missingParameter
        "openai_api_key and openai_model required for OpenAI provider")
    else
      .ok (.openaiP (openai_api_key.getD "") (openai_model.getD "") false)
  else if pyLower provider_type == "gemini" then
    if !(pyTruthy gemini_api_key) || !(pyTruthy gemini_model) then
      .error (.missingParameter
        "gemini_api_key and gemini_model required for Gemini provider")
    else
      .ok (.geminiP (gemini_api_key.getD "") (gemini_model.getD "") false)
  else
    .error (.unknownProvider provider_type)

/-- A concrete stored row used to instantiate store lemmas. -/
def demoRecord : ConvRecord :=
  { id := "a", type := "general", title := some "T",
    created_at := "2024-01-01T00:00:00", updated_at := "2024-01-01T00:00:00",
    messages := [], metadata := "{}" }

/-- A five-row `general` store (plus one `finance` row) for pagination
scenarios. -/
def page5Store : Store :=
  [ { id := "c1", type := "general", title := none,
      created_at := "2024-01-05T00:00:00", updated_at := "2024-01-05T00:00:00",
      messages := [], metadata := "{}" },
    { id := "c2", type := "general", title := none,
      created_at := "2024-01-04T00:00:00", updated_at := "2024-01-04T00:00:00",
      messages := [], metadata := "{}" },
    { id := "c3", type := "general", title := none,
      created_at := "2024-01-03T00:00:00", updated_at := "2024-01-03T00:00:00",
      messages := [], metadata := "{}" },
    { id := "c4", type := "general", title := none,
      created_at := "2024-01-02T00:00:00", updated_at := "2024-01-02T00:00:00",
      messages := [], metadata := "{}" },
    { id := "c5", type := "general", title := none,
      created_at := "2024-01-01T00:00:00", updated_at := "2024-01-01T00:00:00",
      messages := [], metadata := "{}" },
    { id := "f1", type := "finance", title := none,
      created_at := "2024-01-03T12:00:00", updated_at := "2024-01-03T12:00:00",
      messages := [], metadata := "{}" } ]

/-- Habit logs `[today: true, yesterday: true, day-2: false]` with
`today = 100`. -/
def demoHabitLogs : List HabitLog :=
  [ { id := "l1", habit_id := "habit", logged_date := 100, completed := true,
      notes := none, created_at := "t1" },
    { id := "l2", habit_id := "habit", logged_date := 99, completed := true,
      notes := none, created_at := "t2" },
    { id := "l3", habit_id := "habit", logged_date := 98, completed := false,
      notes := none, created_at := "t3" } ]

/-! ### Helper lemmas -/

theorem deserialize_map_message_to_dict (l : List Message) :
    deserialize_messages (l.map message_to_dict) = l := by
  induction l with
  | nil => rfl
  | cons m rest ih =>
    cases m with
    | mk role content =>
      cases role <;>
        simp [message_to_dict, typeTag, deserialize_messages, ih]

theorem find?_map_update (s : Store) (cid : String)
    (g : ConvRecord → ConvRecord) (hg : ∀ r, (g r).id = r.id) :
    (s.map (fun r => if r.id == cid then g r else r)).find?
        (fun r => r.id == cid)
      = (s.find? (fun r => r.id == cid)).map g := by
  induction s with
  | nil => rfl
  | cons r s ih =>
    by_cases h : r.id = cid
    · have hb : (r.id == cid) = true := by simpa using h
      have hgb : ((g r).id == cid) = true := by simp [hg, h]
      have hif : (if r.id == cid then g r else r) = g r := by simp [hb]
      rw [List.map_cons, hif]
      simp only [List.find?_cons, hb, hgb]
      rfl
    · have hb : (r.id == cid) = false := by simp [h]
      have hif : (if r.id == cid then g r else r) = r := by simp [hb]
      rw [List.map_cons, hif]
      simp only [List.find?_cons, hb]
      exact ih

theorem applySave_id (msgs : List Message) (title : Option String)
    (now : String) (r : ConvRecord) :
    (applySave msgs title now r).id = r.id := by
  by_cases hp : pyTruthy title <;> simp [applySave, hp]

theorem save_existing (s : Store) (cid : String) (msgs : List Message)
    (title : Option String) (now : String) (r : ConvRecord)
    (h : findConv s cid = some r) :
    ∃ s', save_conversation s cid msgs title now = Except.ok s' ∧
      findConv s' cid = some (applySave msgs title now r) := by
  unfold findConv at h
  unfold save_conversation
  rw [h]
  refine ⟨_, rfl, ?_⟩
  unfold findConv
  rw [find?_map_update s cid (applySave msgs title now)
      (fun x => applySave_id msgs title now x), h]
  rfl

/-- C1: the claim says `saveConversation` on an unknown id inserts a row like
`createConversation` and does not raise.  The insert branch of the code
instead evaluates the unbound name `conv_type` and raises `NameError`
before inserting anything; evaluated here on an empty store. -/
theorem c1_save_missing_id_raises :
    save_conversation [] "missing-id" [⟨Role.human, "hi"⟩] none
        "2024-01-01T00:00:00"
      = Except.error (PyError.nameError "conv_type") := rfl

/-- C2: saving any message list (roles human/assistant, arbitrary content)
over an existing conversation id and loading that id returns the same
ordered message list with identical roles and contents. -/
theorem c2_save_load_roundtrip (s : Store) (cid : String) (r : ConvRecord)
    (msgs : List Message) (title : Option String) (now : String)
    (h : findConv s cid = some r) :
    ∃ s', save_conversation s cid msgs title now = Except.ok s' ∧
      ∃ c, load_conversation s' cid = some c ∧ c.messages = msgs := by
  obtain ⟨s', hsave, hfind⟩ := save_existing s cid msgs title now r h
  refine ⟨s', hsave, ?_⟩
  unfold load_conversation
  unfold findConv at hfind
  rw [hfind]
  by_cases hp : pyTruthy title <;>
    simp [applySave, hp, deserialize_map_message_to_dict]

/-- Closed instance of `c2_save_load_roundtrip`: a conversation holding an
empty string, newlines and unicode survives a save/load cycle. -/
theorem c2_save_load_roundtrip_witness :
    findConv [demoRecord] "a" = some demoRecord ∧
    ∃ s', save_conversation [demoRecord] "a"
          [⟨Role.human, ""⟩, ⟨Role.assistant, "héllo\nwörld ✓"⟩] none
          "2024-01-02T00:00:00" = Except.ok s' ∧
      ∃ c, load_conversation s' "a" = some c ∧
        c.messages = [⟨Role.human, ""⟩, ⟨Role.assistant, "héllo\nwörld ✓"⟩] :=
  ⟨by decide, c2_save_load_roundtrip [demoRecord] "a" demoRecord
      [⟨Role.human, ""⟩, ⟨Role.assistant, "héllo\nwörld ✓"⟩] none
      "2024-01-02T00:00:00" (by decide)⟩

/-- C9: deserialization recognizes exactly the tags `HumanMessage` and
`AIMessage`, rebuilds those entries in order with their content, silently
drops every other entry, and returns as many messages as there are
recognized entries (it is a total function — no error). -/
theorem c9_deserialize_exactly_two_tags (data : List (String × String)) :
    deserialize_messages data = data.filterMap (fun e =>
      if e.1 = "HumanMessage" then some ⟨Role.human, e.2⟩
      else if e.1 = "AIMessage" then some ⟨Role.assistant, e.2⟩
      else none) ∧
    (deserialize_messages data).length =
      data.countP (fun e => e.1 == "HumanMessage" || e.1 == "AIMessage") := by
  induction data with
  | nil => exact ⟨rfl, rfl⟩
  | cons e rest ih =>
    obtain ⟨ih1, ih2⟩ := ih
    obtain ⟨t, c⟩ := e
    constructor
    · by_cases h1 : t = "HumanMessage"
      · simp [deserialize_messages, h1, ih1]
      · by_cases h2 : t = "AIMessage" <;>
          simp [deserialize_messages, h1, h2, ih1]
    · by_cases h1 : t = "HumanMessage"
      · simp [deserialize_messages, h1, List.countP_cons, ih2]
      · by_cases h2 : t = "AIMessage" <;>
          simp [deserialize_messages, h1, h2, List.countP_cons, ih2]

theorem applySave_updated_at (msgs : List Message) (title : Option String)
    (now : String) (r : ConvRecord) :
    (applySave msgs title now r).updated_at = now := by
  by_cases hp : pyTruthy title <;> simp [applySave, hp]

theorem applySave_created_at (msgs : List Message) (title : Option String)
    (now : String) (r : ConvRecord) :
    (applySave msgs title now r).created_at = r.created_at := by
  by_cases hp : pyTruthy title <;> simp [applySave, hp]

/-- C5: on an id that is not in the store, `load_conversation` returns an
absent result (no error), `delete_conversation` returns `false` and leaves
the store untouched; and after any delete of an id, deleting it again
returns `false` and leaves the store untouched. -/
theorem c5_not_found_idempotent (s : Store) (cid : String) :
    (findConv s cid = none →
      load_conversation s cid = none ∧
      delete_conversation s cid = (false, s)) ∧
    delete_conversation (delete_conversation s cid).2 cid =
      (false, (delete_conversation s cid).2) := by
  constructor
  · intro h
    unfold findConv at h
    constructor
    · unfold load_conversation
      rw [h]
      rfl
    · unfold delete_conversation
      have hall := List.find?_eq_none.mp h
      have hfil : s.filter (fun r => !(r.id == cid)) = s := by
        rw [List.filter_eq_self]
        intro a ha
        simpa using hall a ha
      simp [hfil]
  · unfold delete_conversation
    have hfil :
        ((s.filter (fun r => !(r.id == cid))).filter (fun r => !(r.id == cid)))
          = s.filter (fun r => !(r.id == cid)) := by
      rw [List.filter_eq_self]
      intro a ha
      exact (List.mem_filter.mp ha).2
    simp [hfil]

/-- Closed instance of `c5_not_found_idempotent` on a one-row store and an
id that was never created. -/
theorem c5_not_found_idempotent_witness :
    findConv [demoRecord] "zzz" = none ∧
    (load_conversation [demoRecord] "zzz" = none ∧
      delete_conversation [demoRecord] "zzz" = (false, [demoRecord])) ∧
    delete_conversation (delete_conversation [demoRecord] "zzz").2 "zzz" =
      (false, (delete_conversation [demoRecord] "zzz").2) :=
  ⟨by decide, (c5_not_found_idempotent [demoRecord] "zzz").1 (by decide),
    (c5_not_found_idempotent [demoRecord] "zzz").2⟩

/-- C6: two sequential saves on an existing id store non-decreasing
`updated_at` values (the clock readings are non-decreasing), and neither
save changes `created_at`. -/
theorem c6_updated_at_monotone (s : Store) (cid : String) (r : ConvRecord)
    (msgs1 msgs2 : List Message) (t1 t2 : Option String) (now1 now2 : String)
    (h : findConv s cid = some r) (hc : strLe now1 now2) :
    ∃ s1 r1 s2 r2,
      save_conversation s cid msgs1 t1 now1 = Except.ok s1 ∧
      findConv s1 cid = some r1 ∧
      save_conversation s1 cid msgs2 t2 now2 = Except.ok s2 ∧
      findConv s2 cid = some r2 ∧
      strLe r1.updated_at r2.updated_at ∧
      r1.created_at = r.created_at ∧ r2.created_at = r.created_at := by
  obtain ⟨s1, hs1, hf1⟩ := save_existing s cid msgs1 t1 now1 r h
  obtain ⟨s2, hs2, hf2⟩ := save_existing s1 cid msgs2 t2 now2 _ hf1
  refine ⟨s1, _, s2, _, hs1, hf1, hs2, hf2, ?_, ?_, ?_⟩
  · rw [applySave_updated_at, applySave_updated_at]
    exact hc
  · rw [applySave_created_at]
  · rw [applySave_created_at, applySave_created_at]

/-- Closed instance of `c6_updated_at_monotone` with two clock readings one
day apart. -/
theorem c6_updated_at_monotone_witness :
    (findConv [demoRecord] "a" = some demoRecord ∧
      strLe "2024-01-02T00:00:00" "2024-01-03T00:00:00") ∧
    ∃ s1 r1 s2 r2,
      save_conversation [demoRecord] "a" [] none "2024-01-02T00:00:00"
          = Except.ok s1 ∧
      findConv s1 "a" = some r1 ∧
      save_conversation s1 "a" [⟨Role.human, "x"⟩] (some "New title")
          "2024-01-03T00:00:00" = Except.ok s2 ∧
      findConv s2 "a" = some r2 ∧
      strLe r1.updated_at r2.updated_at ∧
      r1.created_at = demoRecord.created_at ∧
      r2.created_at = demoRecord.created_at :=
  ⟨⟨by decide, by decide⟩,
    c6_updated_at_monotone [demoRecord] "a" demoRecord [] [⟨Role.human, "x"⟩]
      none (some "New title") "2024-01-02T00:00:00" "2024-01-03T00:00:00"
      (by decide) (by decide)⟩

/-- C10: saving over an existing id with an absent, `None` or empty-string
title leaves the stored `title` unchanged, and every save over an existing
id leaves `id`, `type`, `created_at` and `metadata` unchanged, modifying
only `messages`, `updated_at`, and — when the title argument is non-empty —
`title`. -/
theorem c10_save_frame (s : Store) (cid : String) (r : ConvRecord)
    (msgs : List Message) (title : Option String) (now : String)
    (h : findConv s cid = some r) :
    ∃ s', save_conversation s cid msgs title now = Except.ok s' ∧
      (pyTruthy title = false →
        findConv s' cid =
          some { r with messages := msgs.map message_to_dict,
                        updated_at := now }) ∧
      (pyTruthy title = true →
        findConv s' cid =
          some { r with messages := msgs.map message_to_dict,
                        updated_at := now, title := title }) := by
  obtain ⟨s', hs, hf⟩ := save_existing s cid msgs title now r h
  refine ⟨s', hs, ?_, ?_⟩ <;> intro hp <;> rw [hf] <;> simp [applySave, hp]

/-- Closed instance of `c10_save_frame`: an empty-string title argument
leaves the stored title `some "T"` in place and only `messages` and
`updated_at` change. -/
theorem c10_save_frame_witness :
    findConv [demoRecord] "a" = some demoRecord ∧
    ∃ s', save_conversation [demoRecord] "a" [⟨Role.assistant, "y"⟩]
          (some "") "2024-01-02T00:00:00" = Except.ok s' ∧
      (pyTruthy (some "") = false →
        findConv s' "a" =
          some { demoRecord with
                   messages := [⟨Role.assistant, "y"⟩].map message_to_dict,
                   updated_at := "2024-01-02T00:00:00" }) ∧
      (pyTruthy (some "") = true →
        findConv s' "a" =
          some { demoRecord with
                   messages := [⟨Role.assistant, "y"⟩].map message_to_dict,
                   updated_at := "2024-01-02T00:00:00", title := some "" }) :=
  ⟨by decide, c10_save_frame [demoRecord] "a" demoRecord
      [⟨Role.assistant, "y"⟩] (some "") "2024-01-02T00:00:00" (by decide)⟩

theorem calcStreak_takeWhile (rows : List HabitLog) :
    calcStreak rows = (rows.takeWhile (fun x => x.completed)).length := by
  cases rows with
  | nil => rfl
  | cons l rest =>
    by_cases hc : l.completed
    · simp [calcStreak, hc]
    · simp [calcStreak, List.takeWhile_cons, hc]

/-- C4: `get_habit_stats` divides the completed count by the requested
window size `days` (0 when `days = 0`), not by the number of rows found;
the streak is the longest completed prefix of the most-recent-first rows;
and on logs `[today: true, yesterday: true, day-2: false]` with `days = 3`
it reports `current_streak = 2`, `completed = 2`, `total = 3`. -/
theorem c4_get_habit_stats_rate_and_streak :
    (∀ (logs : List HabitLog) (hid : String) (days : Nat) (today : Int),
      (get_habit_stats logs hid days today).completion_rate =
        (if 0 < days then
          ((get_habit_stats logs hid days today).completed : ℚ) / (days : ℚ)
            * 100
        else 0) ∧
      (get_habit_stats logs hid days today).current_streak =
        ((habit_rows logs hid days today).takeWhile
          (fun x => x.completed)).length) ∧
    (get_habit_stats demoHabitLogs "habit" 3 100).current_streak = 2 ∧
    (get_habit_stats demoHabitLogs "habit" 3 100).completed = 2 ∧
    (get_habit_stats demoHabitLogs "habit" 3 100).total = 3 := by
  refine ⟨?_, by decide, by decide, by decide⟩
  intro logs hid days today
  exact ⟨rfl, calcStreak_takeWhile (habit_rows logs hid days today)⟩

/-- C3: for each supported tag (compared case-insensitively) with truthy
required parameters the factory returns a provider whose
`get_model_info()["provider"]` is the lower-cased tag; a falsy required
parameter for the selected backend yields the missing-parameter
`ValueError`, and an unrecognized tag the unknown-provider `ValueError`. -/
theorem c3_create_llm_provider_contract (tag : String)
    (ob om oak oam gak gam : Option String) :
    (pyLower tag = "ollama" → pyTruthy ob = true → pyTruthy om = true →
      ∃ p, create_llm_provider tag ob om oak oam gak gam = Except.ok p ∧
        infoLookup (get_model_info p) "provider" = some (pyLower tag)) ∧
    (pyLower tag = "openai" → pyTruthy oak = true → pyTruthy oam = true →
      ∃ p, create_llm_provider tag ob om oak oam gak gam = Except.ok p ∧
        infoLookup (get_model_info p) "provider" = some (pyLower tag)) ∧
    (pyLower tag = "gemini" → pyTruthy gak = true → pyTruthy gam = true →
      ∃ p, create_llm_provider tag ob om oak oam gak gam = Except.ok p ∧
        infoLookup (get_model_info p) "provider" = some (pyLower tag)) ∧
    (pyLower tag = "ollama" →
      (pyTruthy ob = false ∨ pyTruthy om = false) →
      ∃ msg, create_llm_provider tag ob om oak oam gak gam =
        Except.error (FactoryError.missingParameter msg)) ∧
    (pyLower tag = "openai" →
      (pyTruthy oak = false ∨ pyTruthy oam = false) →
      ∃ msg, create_llm_provider tag ob om oak oam gak gam =
        Except.error (FactoryError.missingParameter msg)) ∧
    (pyLower tag = "gemini" →
      (pyTruthy gak = false ∨ pyTruthy gam = false) →
      ∃ msg, create_llm_provider tag ob om oak oam gak gam =
        Except.error (FactoryError.missingParameter msg)) ∧
    (pyLower tag ≠ "ollama" → pyLower tag ≠ "openai" →
      pyLower tag ≠ "gemini" →
      create_llm_provider tag ob om oak oam gak gam =
        Except.error (FactoryError.unknownProvider tag)) := by
  refine ⟨?_, ?_, ?_, ?_, ?_, ?_, ?_⟩
  · intro h hb hm
    exact ⟨.ollamaP (ob.getD "") (om.getD "") false,
      by simp [create_llm_provider, h, hb, hm],
      by simp [infoLookup, get_model_info, h]⟩
  · intro h hk hm
    exact ⟨.openaiP (oak.getD "") (oam.getD "") false,
      by simp [create_llm_provider, h, hk, hm],
      by simp [infoLookup, get_model_info, h]⟩
  · intro h hk hm
    exact ⟨.geminiP (gak.getD "") (gam.getD "") false,
      by simp [create_llm_provider, h, hk, hm],
      by simp [infoLookup, get_model_info, h]⟩
  · intro h hor
    exact ⟨"ollama_base_url and ollama_model required for Ollama provider",
      by rcases hor with hf | hf <;> simp [create_llm_provider, h, hf]⟩
  · intro h hor
    exact ⟨"openai_api_key and openai_model required for OpenAI provider",
      by rcases hor with hf | hf <;> simp [create_llm_provider, h, hf]⟩
  · intro h hor
    exact ⟨"gemini_api_key and gemini_model required for Gemini provider",
      by rcases hor with hf | hf <;> simp [create_llm_provider, h, hf]⟩
  · intro h1 h2 h3
    simp [create_llm_provider, h1, h2, h3]

/-- Closed instances of `c3_create_llm_provider_contract`: an upper-cased
tag with truthy parameters succeeds, a cloud tag with a missing key fails
with the missing-parameter error, and an unrecognized tag fails with the
unknown-provider error. -/
theorem c3_create_llm_provider_contract_witness :
    (pyLower "OLLAMA" = "ollama" ∧ pyTruthy (some "http://x") = true ∧
      pyTruthy (some "mistral") = true ∧
      ∃ p, create_llm_provider "OLLAMA" (some "http://x") (some "mistral")
          none none none none = Except.ok p ∧
        infoLookup (get_model_info p) "provider" = some (pyLower "OLLAMA")) ∧
    (pyLower "Gemini" = "gemini" ∧ pyTruthy (none : Option String) = false ∧
      ∃ msg, create_llm_provider "Gemini" none none none none none
          (some "gemini-2.0-flash") =
        Except.error (FactoryError.missingParameter msg)) ∧
    (pyLower "claude" ≠ "ollama" ∧ pyLower "claude" ≠ "openai" ∧
      pyLower "claude" ≠ "gemini" ∧
      create_llm_provider "claude" none none none none none none =
        Except.error (FactoryError.unknownProvider "claude")) :=
  ⟨⟨by decide, by decide, by decide,
    (c3_create_llm_provider_contract "OLLAMA" (some "http://x")
        (some "mistral") none none none none).1
      (by decide) (by decide) (by decide)⟩,
   ⟨by decide, by decide,
    (c3_create_llm_provider_contract "Gemini" none none none none none
        (some "gemini-2.0-flash")).2.2.2.2.2.1
      (by decide) (Or.inl (by decide))⟩,
   ⟨by decide, by decide, by decide,
    (c3_create_llm_provider_contract "claude" none none none none none
        none).2.2.2.2.2.2
      (by decide) (by decide) (by decide)⟩⟩

/-- C8: the factory call for the local provider with url `http://x` and
model `m` returns exactly the four-entry model-info map
`{provider: ollama, model: m, base_url: http://x, type: local}`, whether or
not the client has been initialized. -/
theorem c8_ollama_get_model_info :
    create_llm_provider "ollama" (some "http://x") (some "m")
        none none none none
      = Except.ok (Provider.ollamaP "http://x" "m" false) ∧
    get_model_info (Provider.ollamaP "http://x" "m" false) =
      [("provider", "ollama"), ("model", "m"), ("base_url", "http://x"),
       ("type", "local")] ∧
    get_model_info (Provider.ollamaP "http://x" "m" true) =
      [("provider", "ollama"), ("model", "m"), ("base_url", "http://x"),
       ("type", "local")] :=
  ⟨rfl, rfl, rfl⟩

theorem charListLe_total (a : List Char) :
    ∀ b, charListLe a b = true ∨ charListLe b a = true := by
  induction a with
  | nil => intro b; exact Or.inl rfl
  | cons c cs ih =>
    intro b
    cases b with
    | nil => exact Or.inr rfl
    | cons d ds =>
      rcases Nat.lt_trichotomy c.toNat d.toNat with h | h | h
      · exact Or.inl (by simp [charListLe, h])
      · rcases ih ds with h2 | h2
        · exact Or.inl (by simp [charListLe, h, h2])
        · exact Or.inr (by simp [charListLe, h.symm, h2])
      · exact Or.inr (by simp [charListLe, h])

theorem charListLe_trans (a : List Char) :
    ∀ b c, charListLe a b = true → charListLe b c = true →
      charListLe a c = true := by
  induction a with
  | nil => intro b c _ _; rfl
  | cons x xs ih =>
    intro b c h1 h2
    cases b with
    | nil => simp [charListLe] at h1
    | cons y ys =>
      cases c with
      | nil => simp [charListLe] at h2
      | cons z zs =>
        by_cases hxy : x.toNat < y.toNat
        · by_cases hyz : y.toNat < z.toNat
          · have hxz : x.toNat < z.toNat := by omega
            simp [charListLe, hxz]
          · by_cases hzy : z.toNat < y.toNat
            · have hne : ¬ y.toNat < z.toNat := by omega
              simp [charListLe, hne, hzy] at h2
            · have hxz : x.toNat < z.toNat := by omega
              simp [charListLe, hxz]
        · by_cases hyx : y.toNat < x.toNat
          · simp [charListLe, hxy, hyx] at h1
          · by_cases hyz : y.toNat < z.toNat
            · have hxz : x.toNat < z.toNat := by omega
              simp [charListLe, hxz]
            · by_cases hzy : z.toNat < y.toNat
              · simp [charListLe, hyz, hzy] at h2
              · have hxs : charListLe xs ys = true := by
                  simpa [charListLe, hxy, hyx] using h1
                have hys : charListLe ys zs = true := by
                  simpa [charListLe, hyz, hzy] using h2
                have hxz1 : ¬ x.toNat < z.toNat := by omega
                have hxz2 : ¬ z.toNat < x.toNat := by omega
                simpa [charListLe, hxz1, hxz2] using ih ys zs hxs hys

theorem sorted_created (l : Store) :
    (l.insertionSort createdDesc).Pairwise createdDesc := by
  haveI : IsTotal ConvRecord createdDesc :=
    ⟨fun a b => charListLe_total b.created_at.data a.created_at.data⟩
  haveI : IsTrans ConvRecord createdDesc :=
    ⟨fun a b c hab hbc =>
      charListLe_trans c.created_at.data b.created_at.data a.created_at.data
        hbc hab⟩
  exact List.sorted_insertionSort createdDesc l

theorem join_pages {α : Type} (k : Nat) :
    ∀ (m : Nat) (l : List α), l.length ≤ m * k →
      ((List.range m).map (fun j => (l.drop (j * k)).take k)).flatten = l := by
  intro m
  induction m with
  | zero =>
    intro l hl
    simp only [Nat.zero_mul, Nat.le_zero, List.length_eq_zero] at hl
    simp [hl]
  | succ m ih =>
    intro l hl
    rw [Nat.succ_mul] at hl
    have hlen2 : (l.drop k).length ≤ m * k := by
      rw [List.length_drop]
      omega
    have htail : (List.map Nat.succ (List.range m)).map
          (fun j => (l.drop (j * k)).take k)
        = (List.range m).map (fun j => ((l.drop k).drop (j * k)).take k) := by
      rw [List.map_map]
      apply List.map_congr_left
      intro j _
      show (l.drop (Nat.succ j * k)).take k = ((l.drop k).drop (j * k)).take k
      rw [List.drop_drop]
      congr 1
      rw [Nat.succ_mul, Nat.add_comm]
    rw [List.range_succ_eq_map, List.map_cons, htail, List.flatten_cons,
      Nat.zero_mul, List.drop_zero, ih (l.drop k) hlen2,
      List.take_append_drop]

/-- C7 counterexample: the claim quantifies over every type tag `T`, but the
code treats the empty-string tag as "no filter" (`if conv_type:` is false),
so `list_conversations` with type `""` returns a record whose type is
`"general" ≠ ""`. -/
theorem c7_counterexample_empty_type_tag :
    ∃ x ∈ list_conversations [demoRecord] (some "") 10 0, x.type ≠ "" := by
  decide

/-- C7 (amended to non-empty type tags): for every non-empty `T`,
`list_conversations` with filter `T` returns only summaries of type `T`,
in descending `created_at` order, and consecutive pages of size `k`
(offsets `0, k, 2k, …`) concatenate to exactly the full filtered set. -/
theorem c7_list_conversations_filter_order_pages (s : Store) (t : String)
    (ht : t ≠ "") :
    (∀ (limit offset : Nat) (x : ConvSummary),
        x ∈ list_conversations s (some t) limit offset → x.type = t) ∧
    (∀ (limit offset : Nat),
        (list_conversations s (some t) limit offset).Pairwise
          (fun a b => strLe b.created_at a.created_at)) ∧
    (∀ (k m : Nat), (s.filter (fun r => r.type == t)).length ≤ m * k →
        ((List.range m).map
            (fun j => list_conversations s (some t) k (j * k))).flatten
          = list_conversations s (some t)
              ((s.filter (fun r => r.type == t)).length) 0) := by
  have hne : (t != "") = true := by simpa using ht
  have hrows : ∀ (limit offset : Nat),
      list_conversations s (some t) limit offset =
        ((((s.filter (fun r => r.type == t)).insertionSort
            createdDesc).drop offset).take limit).map toSummary := by
    intro limit offset
    simp [list_conversations, hne]
  refine ⟨?_, ?_, ?_⟩
  · intro limit offset x hx
    rw [hrows] at hx
    obtain ⟨r, hr, rfl⟩ := List.mem_map.mp hx
    have hmem : r ∈ s.filter (fun r => r.type == t) :=
      (List.mem_insertionSort createdDesc).mp
        (((List.take_sublist _ _).trans (List.drop_sublist _ _)).subset hr)
    have := (List.mem_filter.mp hmem).2
    simpa [toSummary] using this
  · intro limit offset
    rw [hrows]
    exact List.Pairwise.map toSummary (fun a b h => h)
      ((sorted_created _).sublist
        ((List.take_sublist _ _).trans (List.drop_sublist _ _)))
  · intro k m hlen
    simp only [hrows]
    have hc : ((s.filter (fun r => r.type == t)).insertionSort
        createdDesc).length = (s.filter (fun r => r.type == t)).length :=
      List.length_insertionSort _ _
    rw [List.drop_zero, List.take_of_length_le (le_of_eq hc)]
    have hmaps : (List.range m).map (fun j =>
          List.map toSummary ((((s.filter (fun r => r.type == t)).insertionSort
            createdDesc).drop (j * k)).take k))
        = List.map (List.map toSummary) ((List.range m).map (fun j =>
            (((s.filter (fun r => r.type == t)).insertionSort
              createdDesc).drop (j * k)).take k)) := by
      rw [List.map_map]
      rfl
    rw [hmaps, ← List.map_flatten toSummary,
      join_pages k m ((s.filter (fun r => r.type == t)).insertionSort
        createdDesc) (by rw [hc]; exact hlen)]

/-- Closed instance of `c7_list_conversations_filter_order_pages`: three
pages of size 2 over the five `general` rows of `page5Store` concatenate to
the full filtered listing. -/
theorem c7_list_conversations_filter_order_pages_witness :
    (("general" : String) ≠ "") ∧
    ((page5Store.filter (fun r => r.type == "general")).length ≤ 3 * 2) ∧
    ((List.range 3).map
        (fun j => list_conversations page5Store (some "general") 2 (j * 2))).flatten
      = list_conversations page5Store (some "general")
          ((page5Store.filter (fun r => r.type == "general")).length) 0 :=
  ⟨by decide, by decide,
    (c7_list_conversations_filter_order_pages page5Store "general"
        (by decide)).2.2 2 3 (by decide)⟩

end MyAgent
